import Mathlib

/-!
Verification of the pagination / search-state logic of a small Go web
application (a news-search front end).  The Go program lives in a single
file, `main.go`; this development shallowly embeds its data model and the
pure request-level logic:

* the view-model struct `Search` with its template helper methods
  (`IsLastPage`, `HasPreviousPage`, `HasNextPage`),
* the decoded upstream payload `Results` / `Article` / `Source`,
* `apiKeyHash` (credential masking for the startup log), modelled over
  the key's UTF-8 bytes because Go's `len` and slicing are byte
  operations,
* the URL construction of `getNews`, including a faithful model of Go's
  `url.QueryEscape`,
* the error handling of `getNews` (transport error, non-200 status,
  JSON-decode error), with its log lines made explicit as data,
* the `/search` handler: `strconv.Atoi` page parsing, the 400/500 error
  responses, and the pagination computation (lines 104-157 of main.go).

Effectful pieces are modelled by explicit data: the upstream HTTP response
is a parameter (`UpstreamResponse`), the JSON decoder for the response
body is a parameter (`String -> Except String Results`, standing for
`encoding/json`), and every `log.Printf` becomes a `String` in a returned
list of log lines.  `math.Ceil(float64 a / float64 b)` on a positive
numerator is embedded as the exact integer ceiling division
`(a + b - 1) / b`; the two agree on the entire range the program can see
(float64 is exact below 2^53), and the theorem for claim C1 proves the
embedding equal to the mathematical ceiling.
-/

namespace NewsSite

/-- Source is the news-outlet descriptor inside an article; the Go field
`ID` has type `interface` holding the JSON value, which for this API is a
string or null, modelled as `Option String`. -/
structure Source where
  ID : Option String
  Name : String
deriving DecidableEq

/-- Article is one decoded news article.  `PublishedAt` is a `time.Time`
in Go; no claim inspects it, so it is carried as its RFC3339 text. -/
structure Article where
  ArticleSource : Source
  Author : String
  Title : String
  Description : String
  URL : String
  URLToImage : String
  PublishedAt : String
  Content : String
deriving DecidableEq

/-- Results is the decoded upstream JSON payload
(status, totalResults, articles). -/
structure Results where
  Status : String
  TotalResults : Int
  Articles : List Article
deriving DecidableEq

/-- Search is the per-request view model handed to the template
(main.go lines 24-31). -/
structure Search where
  SearchKey : String
  CurrentPage : Int
  TotalPages : Int
  PreviousPage : Int
  NextPage : Int
  SearchResults : Results
deriving DecidableEq

/-- IsLastPage: Go method `s.CurrentPage >= s.TotalPages`
(main.go line 34-36). -/
def Search.IsLastPage (s : Search) : Bool :=
  decide (s.CurrentPage ≥ s.TotalPages)

/-- HasPreviousPage: Go method `s.CurrentPage > 1` (main.go line 39-41). -/
def Search.HasPreviousPage (s : Search) : Bool :=
  decide (s.CurrentPage > 1)

/-- HasNextPage: Go method `s.CurrentPage < s.TotalPages`
(main.go line 43-45). -/
def Search.HasNextPage (s : Search) : Bool :=
  decide (s.CurrentPage < s.TotalPages)

/-- hexDigitUpper maps a value below 16 to its uppercase hex digit, as
Go's `"0123456789ABCDEF"` table used by percent-encoding. -/
def hexDigitUpper (n : Nat) : Char :=
  if n < 10 then Char.ofNat (48 + n) else Char.ofNat (55 + n)

/-- utf8Bytes gives the UTF-8 encoding of a unicode scalar value, as the
byte values Go ranges over when escaping a string. -/
def utf8Bytes (n : Nat) : List Nat :=
  if n < 128 then [n]
  else if n < 2048 then [192 + n / 64, 128 + n % 64]
  else if n < 65536 then [224 + n / 4096, 128 + (n / 64) % 64, 128 + n % 64]
  else [240 + n / 262144, 128 + (n / 4096) % 64, 128 + (n / 64) % 64, 128 + n % 64]

/-- escapeByte models Go's `url.QueryEscape` treatment of one byte:
alphanumerics and `-._~` are kept, a space becomes a plus sign, and every
other byte becomes percent plus two uppercase hex digits. -/
def escapeByte (b : Nat) : String :=
  if (65 ≤ b ∧ b ≤ 90) ∨ (97 ≤ b ∧ b ≤ 122) ∨ (48 ≤ b ∧ b ≤ 57)
      ∨ b = 45 ∨ b = 95 ∨ b = 46 ∨ b = 126 then
    String.singleton (Char.ofNat b)
  else if b = 32 then
    "+"
  else
    String.mk ['%', hexDigitUpper (b / 16), hexDigitUpper (b % 16)]

/-- urlQueryEscape models Go's `url.QueryEscape`: escape each UTF-8 byte
of the string. -/
def urlQueryEscape (s : String) : String :=
  String.join ((s.data.flatMap fun c => utf8Bytes c.toNat).map escapeByte)

/-- stringBytes is the UTF-8 byte sequence of a string.  Go strings are
byte strings: `len` and index slicing act on these bytes, not on
characters. -/
def stringBytes (s : String) : List Nat :=
  s.data.flatMap fun c => utf8Bytes c.toNat

/-- apiKeyHash (main.go lines 244-249) over the key's UTF-8 bytes, the
units Go's `len(key)` and `key[len(key)-4:]` work in: a key of at most 4
bytes becomes four asterisks (byte 42), a longer key becomes eight
asterisks followed by its last four bytes — which may split a multi-byte
character, exactly as Go's byte slicing does, so the returned Go string
is likewise represented by its byte sequence. -/
def apiKeyHash (key : String) : List Nat :=
  if (stringBytes key).length ≤ 4 then
    List.replicate 4 42
  else
    List.replicate 8 42 ++ (stringBytes key).drop ((stringBytes key).length - 4)

/-- getNewsEndpoint is the request URL built by `getNews` (main.go line
176): the Sprintf of query, pageSize, page and the api key into the
everything-endpoint pattern. -/
def getNewsEndpoint (query : String) (pageSize page : Int) (apiKey : String) : String :=
  "https://newsapi.org/v2/everything?q=" ++ urlQueryEscape query ++
    "&pageSize=" ++ toString pageSize ++ "&page=" ++ toString page ++
    "&apiKey=" ++ apiKey ++ "&sortBy=publishedAt&language=en"

/-- UpstreamResponse is the outcome of `http.Get(endpoint)`: either a
transport failure (connection, DNS, timeout) or an HTTP response with a
status code and a body. -/
inductive UpstreamResponse where
  | transportError (msg : String)
  | response (statusCode : Nat) (body : String)
deriving DecidableEq

/-- GetNewsError mirrors the three `fmt.Errorf` values `getNews` can
return (main.go lines 182, 189, 196). -/
inductive GetNewsError where
  | httpGetError (msg : String)
  | apiStatusCodeError (code : Nat)
  | jsonDecodeError (msg : String)
deriving DecidableEq

/-- message renders a GetNewsError the way `fmt.Errorf` formats it. -/
def GetNewsError.message : GetNewsError → String
  | .httpGetError m => "HTTP Get error: " ++ m
  | .apiStatusCodeError c => "API status code error: " ++ toString c
  | .jsonDecodeError m => "JSON decode error: " ++ m

/-- GetNewsOutput packages what one call of `getNews` produces: the log
lines it emits, the `Results` value and the `error` value it returns
(`none` is Go's nil error). -/
structure GetNewsOutput where
  logs : List String
  results : Results
  err : Option GetNewsError
deriving DecidableEq

/-- getNewsGo embeds `getNews` (main.go lines 175-200).  `decode` stands
for `json.NewDecoder(resp.Body).Decode` on the response body, `resp` for
the outcome of `http.Get`.  Every error path returns the zero `Results`
value together with a non-nil error, exactly as the Go code writes
`return Results\x7b\x7d, fmt.Errorf(...)`. -/
def getNewsGo (decode : String → Except String Results) (apiKey query : String)
    (pageSize page : Int) (resp : UpstreamResponse) : GetNewsOutput :=
  let endpoint := getNewsEndpoint query pageSize page apiKey
  let requestLog := "Requesting URL: " ++ endpoint
  match resp with
  | .transportError m =>
      ⟨[requestLog, "HTTP Get error: " ++ m], ⟨"", 0, []⟩, some (.httpGetError m)⟩
  | .response code body =>
      if code ≠ 200 then
        ⟨[requestLog, "API status code error: " ++ toString code ++ ", body: " ++ body],
          ⟨"", 0, []⟩, some (.apiStatusCodeError code)⟩
      else
        match decode body with
        | .error m =>
            ⟨[requestLog, "JSON decode error: " ++ m], ⟨"", 0, []⟩,
              some (.jsonDecodeError m)⟩
        | .ok r => ⟨[requestLog], r, none⟩

/-- goAtoi embeds `strconv.Atoi`: an optional single sign, then one or
more decimal digits, rejected when empty, when a non-digit appears, or
when the value leaves the 64-bit int range. -/
def goAtoi (s : String) : Option Int :=
  let signAndDigits : Bool × List Char :=
    match s.data with
    | '+' :: rest => (false, rest)
    | '-' :: rest => (true, rest)
    | cs => (false, cs)
  let digits := signAndDigits.2
  if digits.isEmpty then none
  else if digits.all Char.isDigit then
    let n : Nat := digits.foldl (fun acc c => acc * 10 + (c.toNat - 48)) 0
    let v : Int := if signAndDigits.1 then -(n : Int) else (n : Int)
    if -(2 ^ 63) ≤ v ∧ v ≤ 2 ^ 63 - 1 then some v else none
  else none

/-- pageParamValue embeds main.go lines 109-119: an absent (empty) page
parameter defaults to page 1, otherwise the value is what Atoi parses,
with `none` meaning the handler answers 400 and returns. -/
def pageParamValue (pageStr : String) : Option Int :=
  if pageStr = "" then some 1 else goAtoi pageStr

/-- computeTotalPages embeds main.go lines 140-143:
`int(math.Ceil(float64(totalResults) / float64(pageSize)))` when
totalResults is positive, 1 otherwise.  On the positive branch the float
ceiling is embedded as the exact integer ceiling division
`(totalResults + pageSize - 1) / pageSize` (the theorem for claim C1
proves it equal to the mathematical ceiling). -/
def computeTotalPages (totalResults pageSize : Int) : Int :=
  if 0 < totalResults then (totalResults + pageSize - 1) / pageSize else 1

/-- buildSearch embeds the construction of the view model in
`searchHandler` (main.go lines 122-157), given the page number and the
successful `getNews` results.  Lines 134-136 first zero a field that line
137 immediately overwrites with `results`, so the net effect is
`search.Results = results`. -/
def buildSearch (searchKey : String) (page : Int) (results : Results) : Search :=
  let totalPages := computeTotalPages results.TotalResults 20
  { SearchKey := searchKey
    CurrentPage := page
    TotalPages := totalPages
    PreviousPage := if page > 1 then page - 1 else 0
    NextPage := if page < totalPages then page + 1 else 0
    SearchResults := results }

/-- HandlerOutcome is the observable response of one `searchHandler`
invocation: an `http.Error` with a 400-class or 500-class status, or the
template rendered with a `Search` value. -/
inductive HandlerOutcome where
  | clientError (status : Nat) (msg : String)
  | serverError (status : Nat) (msg : String)
  | render (s : Search)
deriving DecidableEq

/-- searchHandlerGo embeds `searchHandler` (main.go lines 95-172) from
query-parameter extraction to the rendering decision, paired with the log
lines emitted on the way (the purely informational summary logs of lines
159-166, which repeat fields of the rendered value, are not modelled).
`decode` and `resp` parameterise the upstream world as in `getNewsGo`. -/
def searchHandlerGo (decode : String → Except String Results) (apiKey : String)
    (resp : UpstreamResponse) (searchKey pageStr : String) :
    HandlerOutcome × List String :=
  match pageParamValue pageStr with
  | none =>
      (.clientError 400 "Invalid page number", ["Error converting page to integer"])
  | some page =>
      let out := getNewsGo decode apiKey searchKey 20 page resp
      match out.err with
      | some e =>
          (.serverError 500 "Failed to get news",
            out.logs ++ ["Error getting news: " ++ e.message])
      | none => (.render (buildSearch searchKey page out.results), out.logs)

/-- sampleArticle is a concrete decoded article used in concrete runs of
the model. -/
def sampleArticle : Article :=
  ⟨⟨some "bbc-news", "BBC News"⟩, "author", "title", "description",
    "https://example.com/a", "https://example.com/a.png",
    "2024-01-01T00:00:00Z", "content"⟩

section FieldLemmas

variable (searchKey : String) (page : Int) (results : Results)

lemma buildSearch_CurrentPage :
    (buildSearch searchKey page results).CurrentPage = page := rfl

lemma buildSearch_TotalPages :
    (buildSearch searchKey page results).TotalPages =
      computeTotalPages results.TotalResults 20 := rfl

lemma buildSearch_PreviousPage :
    (buildSearch searchKey page results).PreviousPage =
      if page > 1 then page - 1 else 0 := rfl

lemma buildSearch_NextPage :
    (buildSearch searchKey page results).NextPage =
      if page < computeTotalPages results.TotalResults 20 then page + 1 else 0 := rfl

end FieldLemmas

/-- C1: for every search request whose upstream call succeeds, the handler
computes totalPages as the ceiling of totalResults / 20 when totalResults
is positive, and as 1 when totalResults is zero. -/
theorem c1_totalPages_is_ceil (searchKey : String) (page : Int) (results : Results) :
    (0 < results.TotalResults →
      (buildSearch searchKey page results).TotalPages =
        ⌈(results.TotalResults : ℚ) / 20⌉) ∧
    (results.TotalResults = 0 →
      (buildSearch searchKey page results).TotalPages = 1) := by
  rw [buildSearch_TotalPages, computeTotalPages]
  constructor
  · intro h
    rw [if_pos h]
    symm
    rw [Int.ceil_eq_iff]
    constructor
    · rw [lt_div_iff₀ (by norm_num : (0 : ℚ) < 20)]
      have h2 : ((results.TotalResults + 20 - 1) / 20 - 1) * 20 <
          results.TotalResults := by omega
      exact_mod_cast h2
    · rw [div_le_iff₀ (by norm_num : (0 : ℚ) < 20)]
      have h2 : results.TotalResults ≤
          ((results.TotalResults + 20 - 1) / 20) * 20 := by omega
      exact_mod_cast h2
  · intro h
    rw [h]
    norm_num

/-- Witness for C1 at the concrete payload of the spec's round-trip
property: 45 total results yield ceiling 45/20, which is 3 pages. -/
theorem c1_totalPages_is_ceil_witness :
    0 < (45 : Int) ∧
    (buildSearch "golang" 1 ⟨"ok", 45, []⟩).TotalPages =
      ⌈((45 : Int) : ℚ) / 20⌉ ∧
    (buildSearch "golang" 1 ⟨"ok", 45, []⟩).TotalPages = 3 :=
  ⟨by decide,
   (c1_totalPages_is_ceil "golang" 1 ⟨"ok", 45, []⟩).1 (by decide),
   by decide⟩

/-- C2: after pagination is computed, previousPage is currentPage - 1 when
currentPage exceeds 1 and the sentinel 0 otherwise, and nextPage is
currentPage + 1 when currentPage is below totalPages and the sentinel 0
otherwise. -/
theorem c2_page_sentinels (searchKey : String) (page : Int) (results : Results) :
    ((buildSearch searchKey page results).CurrentPage > 1 →
      (buildSearch searchKey page results).PreviousPage =
        (buildSearch searchKey page results).CurrentPage - 1) ∧
    ((buildSearch searchKey page results).CurrentPage ≤ 1 →
      (buildSearch searchKey page results).PreviousPage = 0) ∧
    ((buildSearch searchKey page results).CurrentPage <
        (buildSearch searchKey page results).TotalPages →
      (buildSearch searchKey page results).NextPage =
        (buildSearch searchKey page results).CurrentPage + 1) ∧
    ((buildSearch searchKey page results).TotalPages ≤
        (buildSearch searchKey page results).CurrentPage →
      (buildSearch searchKey page results).NextPage = 0) := by
  rw [buildSearch_CurrentPage, buildSearch_TotalPages, buildSearch_PreviousPage,
    buildSearch_NextPage]
  refine ⟨fun h => ?_, fun h => ?_, fun h => ?_, fun h => ?_⟩ <;>
    split_ifs <;> omega

/-- Witness for C2: on page 2 of an empty result set (one total page),
previousPage is 1 and nextPage is the sentinel 0. -/
theorem c2_page_sentinels_witness :
    (buildSearch "golang" 2 ⟨"ok", 0, []⟩).PreviousPage =
      (buildSearch "golang" 2 ⟨"ok", 0, []⟩).CurrentPage - 1 ∧
    (buildSearch "golang" 2 ⟨"ok", 0, []⟩).NextPage = 0 :=
  ⟨(c2_page_sentinels "golang" 2 ⟨"ok", 0, []⟩).1 (by decide),
   (c2_page_sentinels "golang" 2 ⟨"ok", 0, []⟩).2.2.2 (by decide)⟩

/-- Counterexample for C9: with the parseable page parameter -1 and an
empty result set, the constructed Search has HasNextPage true (since
-1 < 1 = totalPages) while NextPage is -1 + 1 = 0, so the claimed
equivalence between HasNextPage and NextPage different from 0 fails. -/
theorem c9_hasNextPage_sentinel_mismatch :
    ¬ (((buildSearch "golang" (-1) ⟨"ok", 0, []⟩).HasNextPage = true) ↔
        (buildSearch "golang" (-1) ⟨"ok", 0, []⟩).NextPage ≠ 0) := by
  decide

/-- Amended C9: for every Search constructed by the handler,
HasPreviousPage agrees with PreviousPage being non-zero unconditionally,
and HasNextPage agrees with NextPage being non-zero whenever the requested
page is not -1 (at page -1 the code stores -1 + 1 = 0, colliding with the
sentinel). -/
theorem c9_helpers_agree (searchKey : String) (page : Int) (results : Results) :
    ((buildSearch searchKey page results).HasPreviousPage = true ↔
      (buildSearch searchKey page results).PreviousPage ≠ 0) ∧
    (page ≠ -1 →
      ((buildSearch searchKey page results).HasNextPage = true ↔
        (buildSearch searchKey page results).NextPage ≠ 0)) := by
  rw [Search.HasPreviousPage, Search.HasNextPage, buildSearch_CurrentPage,
    buildSearch_TotalPages, buildSearch_PreviousPage, buildSearch_NextPage]
  constructor
  · simp only [decide_eq_true_eq]
    split_ifs with h <;> omega
  · intro hp
    simp only [decide_eq_true_eq]
    split_ifs with h <;> omega

/-- Witness for C9 (amended) at page 2 of a 45-result set: there is a
previous page and a next page, and both sentinel fields are non-zero. -/
theorem c9_helpers_agree_witness :
    (2 : Int) ≠ -1 ∧
    ((buildSearch "golang" 2 ⟨"ok", 45, []⟩).HasNextPage = true ↔
      (buildSearch "golang" 2 ⟨"ok", 45, []⟩).NextPage ≠ 0) :=
  ⟨by decide, (c9_helpers_agree "golang" 2 ⟨"ok", 45, []⟩).2 (by decide)⟩

/-- utf8Bytes_of_lt: an ASCII scalar value encodes as the single byte of
the same value. -/
lemma utf8Bytes_of_lt (n : Nat) (h : n < 128) : utf8Bytes n = [n] := by
  rw [utf8Bytes, if_pos h]

/-- flatMap_utf8Bytes_ascii: over all-ASCII characters the UTF-8 byte
sequence is one byte per character. -/
lemma flatMap_utf8Bytes_ascii (l : List Char) (h : ∀ c ∈ l, c.toNat < 128) :
    (l.flatMap fun c => utf8Bytes c.toNat) = l.map Char.toNat := by
  induction l with
  | nil => rfl
  | cons a t ih =>
    rw [List.flatMap_cons, List.map_cons,
      utf8Bytes_of_lt a.toNat (h a (List.mem_cons_self a t)),
      ih fun c hc => h c (List.mem_cons_of_mem a hc)]
    rfl

/-- stringBytes_ascii: an all-ASCII string's bytes are its characters'
code points, one byte each. -/
lemma stringBytes_ascii (s : String) (h : ∀ c ∈ s.data, c.toNat < 128) :
    stringBytes s = s.data.map Char.toNat :=
  flatMap_utf8Bytes_ascii s.data h

/-- Counterexample for C10: apiKeyHash counts and slices UTF-8 bytes, not
characters.  A key of five two-byte characters (10 bytes) takes the long
branch and reveals only its last four bytes — the final two characters —
not the final four characters the claim names; and a key of three
two-byte characters (6 bytes) takes the long branch although its
character length is at most 4, so the claimed four-asterisk result is not
returned either. -/
theorem c10_multibyte_key_mismatch :
    apiKeyHash "ααααα" ≠
      stringBytes ("********" ++ String.drop "ααααα" ("ααααα".length - 4)) ∧
    apiKeyHash "ααα" ≠ stringBytes "****" := by
  exact ⟨by decide, by decide⟩

/-- Amended C10: apiKeyHash works in UTF-8 bytes, the units of Go's `len`
and slicing: a key of at most 4 bytes maps to exactly four asterisks, and
a longer key maps to eight asterisks followed by exactly its last four
bytes (a length-4 byte suffix of the key); on an all-ASCII key, where
bytes and characters coincide, the long branch reveals precisely the
final four characters of the key, as the original claim states. -/
theorem c10_apiKeyHash_masks (key : String) :
    ((stringBytes key).length ≤ 4 → apiKeyHash key = List.replicate 4 42) ∧
    (4 < (stringBytes key).length →
      ∃ p su : List Nat, stringBytes key = p ++ su ∧ su.length = 4 ∧
        apiKeyHash key = List.replicate 8 42 ++ su) ∧
    ((∀ c ∈ key.data, c.toNat < 128) → 4 < key.length →
      ∃ p su : String, key = p ++ su ∧ su.length = 4 ∧
        apiKeyHash key = stringBytes ("********" ++ su)) := by
  refine ⟨fun h => ?_, fun h => ?_, fun hA h => ?_⟩
  · rw [apiKeyHash, if_pos h]
  · refine ⟨(stringBytes key).take ((stringBytes key).length - 4),
      (stringBytes key).drop ((stringBytes key).length - 4),
      (List.take_append_drop _ _).symm, ?_, ?_⟩
    · rw [List.length_drop]
      omega
    · rw [apiKeyHash, if_neg (by omega)]
  · have hdata : key.length = key.data.length := rfl
    have hbytes : stringBytes key = key.data.map Char.toNat :=
      stringBytes_ascii key hA
    have hblen : (stringBytes key).length = key.length := by
      rw [hbytes, List.length_map, hdata]
    refine ⟨key.take (key.length - 4), key.drop (key.length - 4), ?_, ?_, ?_⟩
    · apply String.ext
      simp [String.data_take, String.data_drop]
    · show (key.drop (key.length - 4)).data.length = 4
      rw [String.data_drop, List.length_drop]
      omega
    · have hsu : ∀ c ∈ ("********" ++ key.drop (key.length - 4)).data,
          c.toNat < 128 := by
        intro c hc
        rw [String.data_append, List.mem_append] at hc
        rcases hc with hc | hc
        · have hstar : "********".data = List.replicate 8 '*' := rfl
          rw [hstar] at hc
          rw [List.eq_of_mem_replicate hc]
          decide
        · rw [String.data_drop] at hc
          exact hA c (List.drop_subset _ _ hc)
      rw [apiKeyHash, if_neg (by omega), stringBytes_ascii _ hsu,
        String.data_append, List.map_append, String.data_drop, hbytes,
        List.length_map, ← hdata, ← List.map_drop]
      rfl

/-- Witness for C10 (amended): a 2-byte key collapses to four asterisks,
and the 12-byte all-ASCII key reveals exactly its final four bytes, which
are its final four characters. -/
theorem c10_apiKeyHash_masks_witness :
    apiKeyHash "ab" = List.replicate 4 42 ∧
    (∃ p su : List Nat, stringBytes "SECRETKEY123" = p ++ su ∧ su.length = 4 ∧
      apiKeyHash "SECRETKEY123" = List.replicate 8 42 ++ su) ∧
    (∃ p su : String, "SECRETKEY123" = p ++ su ∧ su.length = 4 ∧
      apiKeyHash "SECRETKEY123" = stringBytes ("********" ++ su)) :=
  ⟨(c10_apiKeyHash_masks "ab").1 (by decide),
   (c10_apiKeyHash_masks "SECRETKEY123").2.1 (by decide),
   (c10_apiKeyHash_masks "SECRETKEY123").2.2 (by decide) (by decide)⟩

/-- decodeEmptyOk is a concrete decoder standing for `encoding/json` on a
well-formed body with zero results and no articles. -/
def decodeEmptyOk : String → Except String Results :=
  fun _ => Except.ok ⟨"ok", 0, []⟩

/-- getNewsGo_logs_shape: whatever the upstream does, the first log line
`getNews` emits is the fully-qualified request URL (main.go line 177). -/
lemma getNewsGo_logs_shape (decode : String → Except String Results)
    (apiKey query : String) (pageSize page : Int) (resp : UpstreamResponse) :
    ∃ rest, (getNewsGo decode apiKey query pageSize page resp).logs =
      ("Requesting URL: " ++ getNewsEndpoint query pageSize page apiKey) :: rest := by
  cases resp with
  | transportError m => exact ⟨_, rfl⟩
  | response code body =>
    by_cases hc : code = 200
    · subst hc
      cases hd : decode body with
      | error m => exact ⟨["JSON decode error: " ++ m], by simp [getNewsGo, hd]⟩
      | ok r => exact ⟨[], by simp [getNewsGo, hd]⟩
    · exact ⟨["API status code error: " ++ toString code ++ ", body: " ++ body],
        by simp [getNewsGo, hc]⟩

/-- C3 (code bug evaluation): the first log line `getNews` emits contains
the API credential in plaintext, and two runs differing only in the key
produce different log output, refuting the non-interference property the
spec demands. -/
theorem c3_getNews_logs_key_plaintext :
    (∃ a b : String,
      (getNewsGo decodeEmptyOk "SECRETKEY123" "golang" 20 1
          (UpstreamResponse.response 200 "body")).logs.head? =
        some (a ++ ("SECRETKEY123" ++ b))) ∧
    (getNewsGo decodeEmptyOk "KEYAAAA" "golang" 20 1
        (UpstreamResponse.response 200 "body")).logs ≠
      (getNewsGo decodeEmptyOk "KEYBBBB" "golang" 20 1
        (UpstreamResponse.response 200 "body")).logs := by
  constructor
  · exact
      ⟨"Requesting URL: https://newsapi.org/v2/everything?q=golang&pageSize=20&page=1&apiKey=",
        "&sortBy=publishedAt&language=en", by decide⟩
  · decide

/-- Counterexample for C4: the page parameter "0" is present and does not
parse as a positive integer, yet the handler does not answer 400: Atoi
accepts it and the handler proceeds to call the upstream client with
page 0. -/
theorem c4_page_zero_accepted :
    pageParamValue "0" = some 0 ∧
    (searchHandlerGo decodeEmptyOk "KEY"
        (UpstreamResponse.response 200 "body") "" "0").1 ≠
      HandlerOutcome.clientError 400 "Invalid page number" := by
  exact ⟨by decide, by decide⟩

/-- Amended C4: when the page parameter is present and does not parse as
an integer at all (strconv.Atoi fails), the handler answers 400 with
"Invalid page number" and returns before the upstream client runs — the
response pair carries no upstream log line.  Integers that are not
positive, such as 0 or -1, are accepted and forwarded upstream. -/
theorem c4_nonint_page_rejected (decode : String → Except String Results)
    (apiKey : String) (resp : UpstreamResponse) (searchKey pageStr : String)
    (hne : pageStr ≠ "") (hbad : goAtoi pageStr = none) :
    searchHandlerGo decode apiKey resp searchKey pageStr =
      (HandlerOutcome.clientError 400 "Invalid page number",
        ["Error converting page to integer"]) := by
  simp only [searchHandlerGo, pageParamValue, if_neg hne, hbad]

/-- Witness for C4 (amended) at the spec's own scenario, the page
parameter "abc". -/
theorem c4_nonint_page_rejected_witness :
    ("abc" ≠ "" ∧ goAtoi "abc" = none) ∧
    searchHandlerGo decodeEmptyOk "KEY" (UpstreamResponse.response 200 "body")
        "" "abc" =
      (HandlerOutcome.clientError 400 "Invalid page number",
        ["Error converting page to integer"]) :=
  ⟨⟨by decide, by decide⟩,
   c4_nonint_page_rejected decodeEmptyOk "KEY"
     (UpstreamResponse.response 200 "body") "" "abc" (by decide) (by decide)⟩

/-- C5: when the upstream API answers with a non-200 status, the handler
responds 500 with the generic message "Failed to get news" (independent of
the upstream body, which is therefore never echoed to the end user), and
the status code is logged together with the body for diagnosis; no Search
value is rendered. -/
theorem c5_upstream_error_gives_500 (decode : String → Except String Results)
    (apiKey searchKey pageStr : String) (page : Int) (code : Nat) (body : String)
    (hpage : pageParamValue pageStr = some page) (hcode : code ≠ 200) :
    (searchHandlerGo decode apiKey (UpstreamResponse.response code body)
        searchKey pageStr).1 =
      HandlerOutcome.serverError 500 "Failed to get news" ∧
    ("API status code error: " ++ toString code ++ ", body: " ++ body) ∈
      (searchHandlerGo decode apiKey (UpstreamResponse.response code body)
        searchKey pageStr).2 := by
  constructor <;> simp [searchHandlerGo, getNewsGo, hpage, hcode]

/-- Witness for C5 at the spec's scenario: upstream answers 401. -/
theorem c5_upstream_error_gives_500_witness :
    (pageParamValue "" = some 1 ∧ (401 : Nat) ≠ 200) ∧
    ((searchHandlerGo decodeEmptyOk "KEY"
        (UpstreamResponse.response 401 "Unauthorized") "golang" "").1 =
      HandlerOutcome.serverError 500 "Failed to get news" ∧
    ("API status code error: " ++ toString (401 : Nat) ++ ", body: " ++
        "Unauthorized") ∈
      (searchHandlerGo decodeEmptyOk "KEY"
        (UpstreamResponse.response 401 "Unauthorized") "golang" "").2) :=
  ⟨⟨rfl, by decide⟩,
   c5_upstream_error_gives_500 decodeEmptyOk "KEY" "golang" "" 1 401
     "Unauthorized" rfl (by decide)⟩

/-- C6: with the query empty and the page parameter absent, the handler
defaults to page 1 (and the constant pageSize 20), and the upstream
request URL carries the empty query term, pageSize 20 and page 1; the
handler's first emitted log line is that request URL, showing the upstream
call was made with those defaults. -/
theorem c6_empty_query_defaults (decode : String → Except String Results)
    (apiKey : String) (resp : UpstreamResponse) :
    pageParamValue "" = some 1 ∧
    getNewsEndpoint "" 20 1 apiKey =
      "https://newsapi.org/v2/everything?q=&pageSize=20&page=1&apiKey=" ++
        (apiKey ++ "&sortBy=publishedAt&language=en") ∧
    (searchHandlerGo decode apiKey resp "" "").2.head? =
      some ("Requesting URL: " ++ getNewsEndpoint "" 20 1 apiKey) := by
  refine ⟨rfl, ?_, ?_⟩
  · simp only [getNewsEndpoint, ← String.append_assoc]
    rfl
  · obtain ⟨rest, hr⟩ := getNewsGo_logs_shape decode apiKey "" 20 1 resp
    simp only [searchHandlerGo, pageParamValue, if_pos rfl]
    cases herr : (getNewsGo decode apiKey "" 20 1 resp).err with
    | some e => simp [herr, hr]
    | none => simp [herr, hr]

/-- Counterexample for C7: a 200 response whose body decodes to 21
articles (which a real JSON payload with 21 array elements produces) is
returned by `getNews` unchanged and without error, violating the claimed
invariant that at most pageSize = 20 articles are returned. -/
theorem c7_oversized_page_returned :
    ((getNewsGo (fun _ => Except.ok ⟨"ok", 21, List.replicate 21 sampleArticle⟩)
        "KEY" "golang" 20 1 (UpstreamResponse.response 200 "body")).err = none) ∧
    20 < ((getNewsGo (fun _ => Except.ok ⟨"ok", 21, List.replicate 21 sampleArticle⟩)
        "KEY" "golang" 20 1
        (UpstreamResponse.response 200 "body")).results.Articles.length) := by
  exact ⟨rfl, by decide⟩

/-- Amended C7: `getNews` does not itself bound the article list; every
ResultSet it returns without error is exactly what the decoder produced
for the 200-status body, so len(articles) ≤ pageSize holds precisely when
the upstream response honors pageSize. -/
theorem c7_results_passthrough (decode : String → Except String Results)
    (apiKey query : String) (pageSize page : Int) (resp : UpstreamResponse)
    (h : (getNewsGo decode apiKey query pageSize page resp).err = none) :
    ∃ body, resp = UpstreamResponse.response 200 body ∧
      decode body =
        Except.ok (getNewsGo decode apiKey query pageSize page resp).results := by
  cases resp with
  | transportError m => simp [getNewsGo] at h
  | response code body =>
    by_cases hc : code = 200
    · subst hc
      cases hd : decode body with
      | error m => simp [getNewsGo, hd] at h
      | ok r => exact ⟨body, rfl, by simp [getNewsGo, hd]⟩
    · simp [getNewsGo, hc] at h

/-- Witness for C7 (amended): a successful run with an empty result set. -/
theorem c7_results_passthrough_witness :
    ((getNewsGo decodeEmptyOk "KEY" "golang" 20 1
        (UpstreamResponse.response 200 "body")).err = none) ∧
    ∃ body, UpstreamResponse.response 200 "body" =
        UpstreamResponse.response 200 body ∧
      decodeEmptyOk body =
        Except.ok ((getNewsGo decodeEmptyOk "KEY" "golang" 20 1
          (UpstreamResponse.response 200 "body")).results) :=
  ⟨rfl,
   c7_results_passthrough decodeEmptyOk "KEY" "golang" 20 1
     (UpstreamResponse.response 200 "body") rfl⟩

/-- C8: `getNews` is atomic on failure: on every error path (transport
error, non-200 status, decode error) it returns the zero Results value —
empty status, zero totalResults, no articles — together with a non-nil
error. -/
theorem c8_zero_results_on_error (decode : String → Except String Results)
    (apiKey query : String) (pageSize page : Int) (resp : UpstreamResponse)
    (h : (getNewsGo decode apiKey query pageSize page resp).err ≠ none) :
    (getNewsGo decode apiKey query pageSize page resp).results = ⟨"", 0, []⟩ := by
  cases resp with
  | transportError m => rfl
  | response code body =>
    by_cases hc : code = 200
    · subst hc
      cases hd : decode body with
      | error m => simp [getNewsGo, hd]
      | ok r => simp [getNewsGo, hd] at h
    · simp [getNewsGo, hc]

/-- Witness for C8 on the transport-error path. -/
theorem c8_zero_results_on_error_witness :
    ((getNewsGo decodeEmptyOk "KEY" "golang" 20 1
        (UpstreamResponse.transportError "connection refused")).err ≠ none) ∧
    (getNewsGo decodeEmptyOk "KEY" "golang" 20 1
        (UpstreamResponse.transportError "connection refused")).results =
      ⟨"", 0, []⟩ :=
  ⟨by decide,
   c8_zero_results_on_error decodeEmptyOk "KEY" "golang" 20 1
     (UpstreamResponse.transportError "connection refused") (by decide)⟩

end NewsSite
